import Mathlib

/-!
Shallow embedding of the conversation-context and analytics subsystem of
`src/bot.py` (a Telegram chat-relay bot), together with theorems checking the
natural-language specification against the code.

Conventions of the embedding:
* Python lists become `List`, Python dicts become insertion-ordered
  association lists, `datetime.now()` becomes explicit string/number
  parameters, and file I/O becomes explicit state passing (`Option` content
  for a file that may be missing or unparsable).
* Python string operations are embedded character-list-wise (`py_endswith`,
  `py_contains`, `py_strip`, `py_take`); case folding (`str.lower`) is
  embedded as ASCII case folding, which agrees with Python on every input
  used in the theorems below.
* A Python exception escaping a function is embedded as `Except PyError`.
-/

namespace Bot

/-- A record of the per-day dialogue log, as built by `log_dialog`
(bot.py lines 105-110): timestamp string `"YYYY-MM-DD HH:MM:SS"`, Telegram
user id, first name, and the message text. -/
structure DialogueEntry where
  timestamp : String
  user_id : Nat
  user_name : String
  message : String
  deriving DecidableEq, Repr

/-- One stored conversation turn of a user's context, as built in
`handle_message` (bot.py lines 304-307 and 343-346): `role` is `"user"` or
`"model"`. -/
structure CtxEntry where
  role : String
  content : String
  deriving DecidableEq, Repr

/-- The persisted context map `user_context.json`: a Python dict from
`str(user_id)` to a list of turns, embedded as an insertion-ordered
association list. -/
abbrev CtxMap := List (String × List CtxEntry)

/-- Embedding of Python `s.endswith(suffix)`. -/
def py_endswith (s suffix : String) : Bool :=
  suffix.data.isSuffixOf s.data

/-- Helper for `py_contains`: does `sub` occur as a contiguous subsequence
of the second list? -/
def containsSeq (sub : List Char) : List Char → Bool
  | [] => sub.isEmpty
  | c :: cs => sub.isPrefixOf (c :: cs) || containsSeq sub cs

/-- Embedding of Python `sub in s` (substring containment). -/
def py_contains (s sub : String) : Bool :=
  containsSeq sub.data s.data

/-- Embedding of Python `s.startswith(p)`. -/
def py_startswith (s p : String) : Bool :=
  p.data.isPrefixOf s.data

/-- Embedding of Python `s.lower()` (ASCII case folding; the inputs examined
by the theorems below contain no non-ASCII cased letters). -/
def py_lower (s : String) : String :=
  ⟨s.data.map Char.toLower⟩

/-- Whitespace test used by Python `str.strip()` (the ASCII whitespace
characters; the strings examined below contain no exotic Unicode spaces). -/
def py_isspace (c : Char) : Bool :=
  c == ' ' || c == '\t' || c == '\n' || c == '\r' || c == Char.ofNat 11 || c == Char.ofNat 12

/-- Embedding of Python `s.strip()`: drop whitespace from both ends. -/
def py_strip (s : String) : String :=
  ⟨((s.data.dropWhile py_isspace).reverse.dropWhile py_isspace).reverse⟩

/-- Embedding of the Python slice `s[:n]` on strings. -/
def py_take (n : Nat) (s : String) : String :=
  ⟨s.data.take n⟩

/-- Embedding of the Python slice `l[-n:]` on lists: the last `n` elements
(the whole list when it is shorter than `n`). -/
def py_lastN (n : Nat) (l : List α) : List α :=
  l.drop (l.length - n)

/-- The `DATA_DIR` constant (bot.py line 35). -/
def DATA_DIR : String := "data"

/-- Path of the day's dialogue-log segment, from `get_dialogs_file`
(bot.py line 66): `os.path.join(DATA_DIR, f"dialogs_YYYY-MM-DD.json")`. -/
def get_dialogs_file (today : String) : String :=
  DATA_DIR ++ "/dialogs_" ++ today ++ ".json"

/-- Path of the persisted context map, from `get_user_context_file`
(bot.py line 70). -/
def get_user_context_file : String :=
  DATA_DIR ++ "/user_context.json"

/-- Result of `load_json` on a dialogue-log file: Python returns either the
parsed JSON list or, for a missing/unparsable file, `[]` when the filepath
ends with the literal `"dialogs"` and `{}` (a dict) otherwise
(bot.py lines 82-90). -/
inductive LoadedDialogs where
  | asList (entries : List DialogueEntry)
  | asDict
  deriving DecidableEq, Repr

/-- Embedding of `load_json` (bot.py lines 82-90) applied to a dialogue-log
file. `content` is the file state: `some l` when the file exists and parses
to the list `l`, `none` when it is missing or unparsable (the `except`
branch returns the same default as the missing-file branch). -/
def load_json_dialogs (filepath : String) (content : Option (List DialogueEntry)) :
    LoadedDialogs :=
  match content with
  | some l => .asList l
  | none => if py_endswith filepath "dialogs" then .asList [] else .asDict

/-- Embedding of `load_json` applied to the context file
`data/user_context.json`. Its name does not end with `"dialogs"`
(see `user_context_file_not_endswith_dialogs` below), so the default for a
missing or unparsable file is the empty dict. -/
def load_json_ctx (content : Option CtxMap) : CtxMap :=
  content.getD []

/-- A Python exception escaping one of the embedded functions. -/
inductive PyError where
  | attributeError
  deriving DecidableEq, Repr

/-- Embedding of `log_dialog` (bot.py lines 100-113). It loads the current
day's log via `load_json`, appends the new entry with `dialogs.append(...)`,
and saves. When `load_json` produced a dict (`{}`), `dialogs.append` raises
`AttributeError` (a dict has no `append`), embedded as `.error`. On success
the new file content is returned. -/
def log_dialog (today : String) (fileContent : Option (List DialogueEntry))
    (ts : String) (user_id : Nat) (user_name message_text : String) :
    Except PyError (List DialogueEntry) :=
  match load_json_dialogs (get_dialogs_file today) fileContent with
  | .asList l => .ok (l ++ [⟨ts, user_id, user_name, message_text⟩])
  | .asDict => .error .attributeError

/-- Embedding of `get_user_context` (bot.py lines 115-119):
`contexts.get(str(user_id), [])`. -/
def get_user_context (content : Option CtxMap) (user_id : Nat) : List CtxEntry :=
  ((load_json_ctx content).lookup (toString user_id)).getD []

/-- Python dict assignment `m[k] = v` on an insertion-ordered association
list: replace in place when the key exists, append otherwise. -/
def pyDictSet {β : Type} (m : List (String × β)) (k : String) (v : β) :
    List (String × β) :=
  if m.any (fun p => p.1 == k) then
    m.map (fun p => if p.1 == k then (k, v) else p)
  else
    m ++ [(k, v)]

/-- Embedding of `save_user_context` (bot.py lines 121-128): reload the
context map and store `messages[-5:]` under `str(user_id)` (the code keeps
only the last 5 entries, per its comment "Keep only last 5 messages"). -/
def save_user_context (content : Option CtxMap) (user_id : Nat)
    (messages : List CtxEntry) : CtxMap :=
  pyDictSet (load_json_ctx content) (toString user_id) (py_lastN 5 messages)

/-- Embedding of `clear_user_context` (bot.py lines 130-137): delete the
user's key when present. -/
def clear_user_context (content : Option CtxMap) (user_id : Nat) : CtxMap :=
  (load_json_ctx content).filter (fun p => p.1 != toString user_id)

/-- The net effect on one user's stored turn sequence of one
get-append-save round trip through the Context Store (the composition of
`get_user_context`, `list.append`, `save_user_context` performed by
`handle_message`): push the entry, then trim to the last 5 entries. This is
the code's realisation of the spec's `appendTurn`. -/
def appendTurn (stored : List CtxEntry) (e : CtxEntry) : List CtxEntry :=
  py_lastN 5 (stored ++ [e])

/-! ### Report aggregator (bot.py lines 139-244)

The source file is stored with mojibake text in its string literals (UTF-8
Cyrillic that was once mis-decoded and re-saved); the embedding reproduces
the literals exactly as the Python interpreter sees them in the file. -/

/-- The entries of `dialogs` whose timestamp starts with
`f"{today} {current_hour}:"` — the window actually aggregated by
`generate_hourly_report` (bot.py lines 152-155). -/
def hourWindow (dialogs : List DialogueEntry) (today current_hour : String) :
    List DialogueEntry :=
  dialogs.filter (fun d => py_startswith d.timestamp (today ++ " " ++ current_hour ++ ":"))

/-- Python `len(set(user ids))` (bot.py lines 161 and 202): the number of
distinct user ids among the entries. -/
def uniqueUsers (w : List DialogueEntry) : Nat :=
  ((w.map (fun d => d.user_id)).dedup).length

/-- The unused local `all_text` of `generate_hourly_report` (bot.py line
165): the lower-cased messages joined by spaces. The code computes it and
never reads it again. -/
def all_text (w : List DialogueEntry) : String :=
  String.intercalate " " (w.map (fun d => py_lower d.message))

/-- The question heuristic (bot.py lines 168 and 213): messages containing
`"?"`, in log order, the first `k` of them. -/
def questionMessages (w : List DialogueEntry) (k : Nat) : List String :=
  ((w.filter (fun d => py_contains d.message "?")).map (fun d => d.message)).take k

/-- The data of an hourly report artifact, as computed by
`generate_hourly_report` (bot.py lines 160-168). -/
structure HourlyReport where
  hour : String
  total_messages : Nat
  unique_users : Nat
  questions : List String
  deriving DecidableEq, Repr

/-- Statistics step of `generate_hourly_report` on a nonempty hour window
(bot.py lines 160-168): count, distinct users, and up to 5 question
messages. `all_text` is computed and discarded, exactly as in the code. -/
def aggregateHourly (current_hour : String) (hour_messages : List DialogueEntry) :
    HourlyReport :=
  let _unused := all_text hour_messages
  { hour := current_hour
    total_messages := hour_messages.length
    unique_users := uniqueUsers hour_messages
    questions := questionMessages hour_messages 5 }

/-- Embedding of `generate_hourly_report` (bot.py lines 139-168) up to
rendering: `none` when no artifact is written (missing/unparsable/empty
dialogs file, or no message of the current hour), otherwise the report
data. The window filtered is the one of `current_hour` — the hour of the
wall clock at trigger time. -/
def generate_hourly_report (fileContent : Option (List DialogueEntry))
    (today current_hour : String) : Option HourlyReport :=
  match load_json_dialogs (get_dialogs_file today) fileContent with
  | .asDict => none
  | .asList dialogs =>
    if dialogs.isEmpty then none
    else
      let hour_messages := hourWindow dialogs today current_hour
      if hour_messages.isEmpty then none
      else some (aggregateHourly current_hour hour_messages)

/-- Separator line of the hourly report (24 box characters, line 172). -/
def hourlySep : String :=
  String.join (List.replicate 24 "‚ïê")

/-- Separator line of the daily report (32 box characters, line 217). -/
def dailySep : String :=
  String.join (List.replicate 32 "‚ïê")

/-- The literal printed when a report has no questions (lines 182, 235). -/
def noQuestionsLine : String :=
  "- –ù–µ—Ç –≤–æ–ø—Ä–æ—Å–æ–≤\n"

/-- Rendering of one question as a report line (lines 180, 233): truncated
to 100 characters for display. -/
def questionLine (q : String) : String :=
  "- " ++ py_take 100 q ++ "\n"

/-- Rendering of the hourly report artifact text (bot.py lines 171-182). -/
def renderHourly (r : HourlyReport) : String :=
  "–û–¢–ß–Å–¢ –ó–ê –ß–ê–° " ++ r.hour ++ ":00-" ++ r.hour ++ ":59\n" ++
  hourlySep ++ "\n" ++
  "–í—Å–µ–≥–æ —Å–æ–æ–±—â–µ–Ω–∏–π: " ++ toString r.total_messages ++ "\n" ++
  "–ü–æ–ª—å–∑–æ–≤–∞—Ç–µ–ª–µ–π: " ++ toString r.unique_users ++ "\n" ++
  "–ò–Ω—Ç–µ—Ä–µ—Å–Ω—ã–µ –≤–æ–ø—Ä–æ—Å—ã:\n" ++
  (if r.questions.isEmpty then noQuestionsLine
   else String.join (r.questions.map questionLine))

/-- Python `Counter`-style tally (bot.py lines 206-208): a `defaultdict`
bumped once per entry, keys in first-occurrence order. -/
def counterBump (m : List (String × Nat)) (k : String) : List (String × Nat) :=
  if m.any (fun p => p.1 == k) then
    m.map (fun p => if p.1 == k then (p.1, p.2 + 1) else p)
  else
    m ++ [(k, 1)]

/-- Message count per user name over the day's entries (bot.py lines
206-208). -/
def userCounts (dialogs : List DialogueEntry) : List (String × Nat) :=
  dialogs.foldl (fun acc d => counterBump acc d.user_name) []

/-- Stable insertion of one pair into a list sorted by count descending:
the inserted element goes before the first element whose count is not
larger. Folding it from the right embeds Python
`sorted(..., key=lambda x: x[1], reverse=True)`, which is a stable
descending sort (bot.py line 210). -/
def insertByCountDesc (x : String × Nat) : List (String × Nat) → List (String × Nat)
  | [] => [x]
  | y :: ys => if x.2 ≥ y.2 then x :: y :: ys else y :: insertByCountDesc x ys

/-- Stable sort by count descending (bot.py line 210). -/
def sortByCountDesc (l : List (String × Nat)) : List (String × Nat) :=
  l.foldr insertByCountDesc []

/-- The data of the daily report artifact, as computed by
`generate_daily_report` (bot.py lines 201-213). -/
structure DailyReport where
  date : String
  total_messages : Nat
  unique_users : Nat
  top_users : List (String × Nat)
  questions : List String
  deriving DecidableEq, Repr

/-- Statistics step of `generate_daily_report` on the nonempty day log
(bot.py lines 201-213). -/
def aggregateDaily (today : String) (dialogs : List DialogueEntry) : DailyReport :=
  { date := today
    total_messages := dialogs.length
    unique_users := uniqueUsers dialogs
    top_users := (sortByCountDesc (userCounts dialogs)).take 5
    questions := questionMessages dialogs 10 }

/-- Embedding of `generate_daily_report` (bot.py lines 193-213) up to
rendering: `none` when no artifact is written (missing/unparsable/empty
dialogs file), otherwise the report data over the whole day log. -/
def generate_daily_report (fileContent : Option (List DialogueEntry))
    (today : String) : Option DailyReport :=
  match load_json_dialogs (get_dialogs_file today) fileContent with
  | .asDict => none
  | .asList dialogs =>
    if dialogs.isEmpty then none
    else some (aggregateDaily today dialogs)

/-- Rendering of one top-user line of the daily report (bot.py line 225). -/
def topUserLine (p : String × Nat) : String :=
  "- " ++ p.1 ++ ": " ++ toString p.2 ++ " —Å–æ–æ–±—â–µ–Ω–∏–π\n"

/-- Rendering of the daily report artifact text (bot.py lines 216-235). -/
def renderDaily (r : DailyReport) : String :=
  "–ï–ñ–ï–î–ù–ï–í–ù–´–ô –û–¢–ß–Å–¢ " ++ r.date ++ "\n" ++
  dailySep ++ "\n" ++
  "–í—Å–µ–≥–æ —Å–æ–æ–±—â–µ–Ω–∏–π: " ++ toString r.total_messages ++ "\n" ++
  "–í—Å–µ–≥–æ –ø–æ–ª—å–∑–æ–≤–∞—Ç–µ–ª–µ–π: " ++ toString r.unique_users ++ "\n" ++
  "\n" ++
  "–¢–æ–ø –ø–æ–ª—å–∑–æ–≤–∞—Ç–µ–ª–µ–π:\n" ++
  String.join (r.top_users.map topUserLine) ++
  "\n" ++
  "–ò–Ω—Ç–µ—Ä–µ—Å–Ω—ã–µ –≤–æ–ø—Ä–æ—Å—ã:\n" ++
  (if r.questions.isEmpty then noQuestionsLine
   else String.join (r.questions.map questionLine))

/-! ### File-system state and the state-level operations -/

/-- The durable state touched by the subsystem: today's dialogue-log file,
the context-map file, the per-hour report artifacts (keyed by the
two-digit hour string) and the daily report artifact. `none` models a
missing file. -/
structure Files where
  dialogs : Option (List DialogueEntry)
  user_context : Option CtxMap
  hourly_reports : List (String × String)
  daily_report : Option String
  deriving DecidableEq, Repr

/-- State-level `generate_hourly_report`: writes the rendered artifact
under the current-hour key (`get_hourly_report_file`, bot.py lines 72-76
and 184-191), or leaves the state unchanged when no report is produced. -/
def run_generate_hourly_report (fs : Files) (today current_hour : String) : Files :=
  match generate_hourly_report fs.dialogs today current_hour with
  | none => fs
  | some r =>
    { fs with hourly_reports := pyDictSet fs.hourly_reports current_hour (renderHourly r) }

/-- State-level `generate_daily_report`: overwrites the single daily
artifact (`get_daily_report_file`, bot.py lines 78-80 and 237-244), or
leaves the state unchanged when no report is produced. -/
def run_generate_daily_report (fs : Files) (today : String) : Files :=
  match generate_daily_report fs.dialogs today with
  | none => fs
  | some r => { fs with daily_report := some (renderDaily r) }

/-! ### Message pipeline (bot.py lines 290-371) -/

/-- Outcome of the external model call in `handle_message` (bot.py lines
321-340): the reply text, or the string of the raised exception. -/
inductive ModelResult where
  | ok (text : String)
  | failed (error_msg : String)
  deriving DecidableEq, Repr

/-- The rate-limit classifier of the `except` branch (bot.py line 366):
`"429" in error_msg or "quota" in error_msg.lower()`. -/
def is_rate_limit_error (error_msg : String) : Bool :=
  py_contains error_msg "429" || py_contains (py_lower error_msg) "quota"

/-- The user-facing rate-limit message (bot.py line 367). -/
def RATE_LIMIT_MSG : String :=
  "üí∞ –õ–∏–º–∏—Ç –Ω–∞ —Å–µ–≥–æ–¥–Ω—è. –ó–∞–≤—Ç—Ä–∞ –ø–æ–ø—Ä–æ–±—É–π!"

/-- The user-facing generic failure message (bot.py line 369). -/
def GENERIC_ERROR_MSG : String :=
  "‚ùå –û—à–∏–±–∫–∞. –ü–æ–ø—Ä–æ–±—É–π –ø–æ–∑–∂–µ"

/-- Result of one `handle_message` invocation: the new file state and the
text sent back to the user. -/
structure HandleOutcome where
  files : Files
  sent : String
  deriving DecidableEq, Repr

/-- Embedding of `user.first_name or "Unknown"` (bot.py line 294, with
Python treating both `None` and `""` as falsy). -/
def user_name_of (first_name : Option String) : String :=
  match first_name with
  | some s => if s = "" then "Unknown" else s
  | none => "Unknown"

/-- Embedding of `handle_message` (bot.py lines 290-371). Wall-clock reads
are the parameters `now_ts` (the log timestamp), `today`/`current_hour`
(date and two-digit-hour strings) and `hour`/`minute` (the report-trigger
checks of lines 356 and 360). Steps, in source order: `log_dialog` —
outside the `try`, so its `AttributeError` escapes the handler (`.error`);
read the user's context and append the user turn; call the model; on
success strip the reply, append the model turn, `save_user_context`, send
the reply, and run the minute-0 / 23:00 report triggers; on failure send
the classified error message, leaving context and reports untouched. -/
def handle_message (fs : Files) (user_id : Nat) (first_name : Option String)
    (message_text : String) (now_ts today current_hour : String)
    (hour minute : Nat) (model : ModelResult) : Except PyError HandleOutcome :=
  let user_name := user_name_of first_name
  match log_dialog today fs.dialogs now_ts user_id user_name message_text with
  | .error e => .error e
  | .ok newDialogs =>
    let fs1 := { fs with dialogs := some newDialogs }
    let user_messages := get_user_context fs1.user_context user_id ++
      [⟨"user", message_text⟩]
    match model with
    | .ok text =>
      let bot_reply := py_strip text
      let user_messages2 := user_messages ++ [⟨"model", bot_reply⟩]
      let fs2 := { fs1 with
        user_context := some (save_user_context fs1.user_context user_id user_messages2) }
      let fs3 := if minute == 0 then run_generate_hourly_report fs2 today current_hour
                 else fs2
      let fs4 := if hour == 23 && minute == 0 then run_generate_daily_report fs3 today
                 else fs3
      .ok ⟨fs4, bot_reply⟩
    | .failed error_msg =>
      .ok ⟨fs1, if is_rate_limit_error error_msg then RATE_LIMIT_MSG
                else GENERIC_ERROR_MSG⟩

/-! ### Scheduler loop (bot.py lines 381-400)

`periodic_reports` polls `datetime.now()`: when the minute is 0 it runs the
hourly report and sleeps 60 s; when (the same, stale) reading shows 23:00
it also runs the daily report and sleeps another 60 s; every iteration ends
with a 30 s sleep. Time is embedded as seconds (`Nat`); one loop iteration
advances the clock by exactly its sleeps (the bounding case for how soon
the next check can happen). -/

/-- Minute-of-hour of a time in seconds. -/
def minuteOf (t : Nat) : Nat := (t / 60) % 60

/-- Hour-of-day of a time in seconds. -/
def hourOf (t : Nat) : Nat := (t / 3600) % 24

/-- The hour bucket of a time: which wall-clock hour it falls in. -/
def hourBucket (t : Nat) : Nat := t / 3600

/-- One iteration of the `periodic_reports` loop, returning the time of the
next check: +60 s after an hourly trigger, +60 s more after a daily
trigger, +30 s always (bot.py lines 385-397). -/
def loopStep (t : Nat) : Nat :=
  if minuteOf t == 0 then
    t + 60 + (if hourOf t == 23 then 60 else 0) + 30
  else t + 30

/-- The time at which the loop performs its `n`-th check, starting from
`t0`. -/
def loopTime (t0 : Nat) : Nat → Nat
  | 0 => t0
  | n + 1 => loopStep (loopTime t0 n)

/-- Whether the loop's `n`-th check triggers the hourly report
(bot.py line 388: `now.minute == 0`). -/
def loopHourlyTrigger (t0 n : Nat) : Bool :=
  minuteOf (loopTime t0 n) == 0

/-- Whether a successfully handled message at time `t` triggers the hourly
report from inside `handle_message` (bot.py line 356). -/
def msgTriggersHourly (t : Nat) : Bool :=
  minuteOf t == 0

/-- How many messages of a trace of successful-message times trigger the
hourly aggregation inside the given hour bucket. -/
def hourlyTriggerCount (msgTimes : List Nat) (bucket : Nat) : Nat :=
  (msgTimes.filter (fun t => msgTriggersHourly t && hourBucket t == bucket)).length

/-- The hour window determined by the state of the dialogs file: empty when
the file is missing or unparsable. Used to phrase "the report window
contains no dialogue entries" uniformly over file states. -/
def hourWindowOf (fileContent : Option (List DialogueEntry))
    (today current_hour : String) : List DialogueEntry :=
  hourWindow (fileContent.getD []) today current_hour

/-! ### Spec-side comparator definitions

The following definitions follow the SPEC's words (spec.md §4.3), not the
code; they exist only to be compared against the code-derived definitions
above in the refinement claims about highlight selection and term
extraction. -/

/-- Spec §4.3 ranking for highlight selection: `a` ranks before `b` when
its message is strictly longer, with ties broken by earliest timestamp. -/
def specHighlightRank (a b : DialogueEntry) : Bool :=
  b.message.length < a.message.length ||
  (a.message.length == b.message.length && decide (a.timestamp ≤ b.timestamp))

/-- Stable insertion for `specSortByRank`. -/
def specInsertRank (x : DialogueEntry) : List DialogueEntry → List DialogueEntry
  | [] => [x]
  | y :: ys => if specHighlightRank x y then x :: y :: ys else y :: specInsertRank x ys

/-- Stable sort of a window by `specHighlightRank`. -/
def specSortByRank (l : List DialogueEntry) : List DialogueEntry :=
  l.foldr specInsertRank []

/-- Spec §4.3 highlight selection: rank entries by message length
descending, ties broken by earliest timestamp, take the top `k`,
truncating each to 100 characters for display. -/
def specHighlightedMessages (k : Nat) (w : List DialogueEntry) : List String :=
  (((specSortByRank w).map (fun d => d.message)).take k).map (py_take 100)

/-- Helper for `splitWs`: the second argument accumulates the current
token in reverse. -/
def splitWsAux : List Char → List Char → List String
  | [], acc => if acc.isEmpty then [] else [⟨acc.reverse⟩]
  | c :: cs, acc =>
    if py_isspace c then
      (if acc.isEmpty then [] else [⟨acc.reverse⟩]) ++ splitWsAux cs []
    else
      splitWsAux cs (c :: acc)

/-- Whitespace tokenizer used by the spec-side term extraction: maximal
runs of non-whitespace characters. -/
def splitWs (l : List Char) : List String :=
  splitWsAux l []

/-- Spec §4.3 term extraction: lower-case and whitespace-tokenize the
window's message text, discard tokens of length at most 4, rank by
frequency descending with ties broken by first-occurrence order, take the
top 3. The frequency ranking reuses the tally-in-first-occurrence-order
and stable-descending-sort helpers defined above. -/
def specTopTerms (w : List DialogueEntry) : List String :=
  let tokens := ((w.map (fun d => splitWs (py_lower d.message).data)).flatten)
  let longTokens := tokens.filter (fun t => 4 < t.length)
  ((sortByCountDesc (longTokens.foldl counterBump [])).take 3).map Prod.fst

/-! ### Shared helper lemmas -/

/-- The day-segment filename ends in `".json"`, never in the literal
`"dialogs"` tested by `load_json`: the `[]` default branch of `load_json`
is dead code for every date. -/
theorem not_endswith_dialogs (today : String) :
    py_endswith (get_dialogs_file today) "dialogs" = false := by
  have hsplit : get_dialogs_file today = ("data/dialogs_" ++ today) ++ ".json" := by
    unfold get_dialogs_file DATA_DIR
    rw [show ("data" : String) ++ "/dialogs_" = "data/dialogs_" from rfl]
  show ("dialogs".data.reverse.isPrefixOf (get_dialogs_file today).data.reverse) = false
  rw [hsplit, String.data_append, List.reverse_append]
  show (['s', 'g', 'o', 'l', 'a', 'i', 'd'].isPrefixOf
      ('n' :: 'o' :: 's' :: 'j' :: '.' :: ("data/dialogs_" ++ today).data.reverse)) = false
  rfl

/-- Taking the last `n` elements of a list that was already trimmed to its
last `n` elements and extended by one more element agrees with trimming
the untrimmed extension. -/
theorem py_lastN_append_of_lastN (n : Nat) (hn : 0 < n) (l : List α) (e : α) :
    py_lastN n (py_lastN n l ++ [e]) = py_lastN n (l ++ [e]) := by
  unfold py_lastN
  rcases le_or_lt n l.length with h | h
  · have hlen : (l.drop (l.length - n)).length = n := by
      rw [List.length_drop]; omega
    have hlen2 : (l.drop (l.length - n) ++ [e]).length = n + 1 := by
      rw [List.length_append, hlen]; rfl
    rw [hlen2]
    have h1 : n + 1 - n = 1 := by omega
    rw [h1, List.drop_append_of_le_length (by omega : 1 ≤ (l.drop (l.length - n)).length),
      List.drop_drop, List.length_append]
    have h2 : (l.length + [e].length - n) = l.length + 1 - n := rfl
    rw [h2, List.drop_append_of_le_length (by omega : l.length + 1 - n ≤ l.length)]
    congr 2
    omega
  · have h0 : l.length - n = 0 := by omega
    rw [h0, List.drop_zero]

/-- Iterating the Context Store's push-then-trim round trip from an empty
context retains exactly the last 5 pushed entries. -/
theorem foldl_appendTurn (es : List CtxEntry) :
    es.foldl appendTurn [] = py_lastN 5 es := by
  induction es using List.reverseRecOn with
  | nil => rfl
  | append_singleton l e ih =>
    rw [List.foldl_concat, ih, appendTurn, py_lastN_append_of_lastN 5 (by omega)]

/-- Looking up a key right after replacing its value in place finds the
new value. -/
theorem lookup_map_replace {β : Type} (k : String) (v : β) (m : List (String × β))
    (h : m.any (fun p => p.1 == k) = true) :
    (m.map (fun p => if p.1 == k then (k, v) else p)).lookup k = some v := by
  induction m with
  | nil => simp at h
  | cons p rest ih =>
    obtain ⟨a, b⟩ := p
    cases hb : (a == k) with
    | true =>
      simp only [List.map_cons]
      rw [if_pos hb]
      simp [List.lookup]
    | false =>
      simp only [List.map_cons]
      rw [if_neg (by simp [hb])]
      rw [List.any_cons, hb, Bool.false_or] at h
      have hk : (k == a) = false := by
        have hpk : ¬ a = k := by simpa using hb
        simpa using Ne.symm hpk
      simp only [List.lookup, hk]
      exact ih h

/-- Looking up a key right after appending it to a map that did not contain
it finds the appended value. -/
theorem lookup_append_new {β : Type} (k : String) (v : β) (m : List (String × β))
    (h : m.any (fun p => p.1 == k) = false) :
    (m ++ [(k, v)]).lookup k = some v := by
  induction m with
  | nil => simp [List.lookup]
  | cons p rest ih =>
    obtain ⟨a, b⟩ := p
    cases hb : (a == k) with
    | true =>
      rw [List.any_cons] at h
      simp [hb] at h
    | false =>
      rw [List.any_cons] at h
      simp only [hb, Bool.false_or] at h
      have hk : (k == a) = false := by
        have hpk : ¬ a = k := by simpa using hb
        simpa using Ne.symm hpk
      simp only [List.cons_append, List.lookup, hk]
      exact ih h

/-- When `generate_hourly_report` produces a report, the report is the
aggregation of the current-hour window. -/
theorem hourly_some_eq {dialogs : List DialogueEntry} {today ch : String}
    {r : HourlyReport}
    (h : generate_hourly_report (some dialogs) today ch = some r) :
    r = aggregateHourly ch (hourWindow dialogs today ch) := by
  unfold generate_hourly_report at h
  simp only [load_json_dialogs] at h
  by_cases h1 : dialogs.isEmpty = true
  · rw [if_pos h1] at h
    exact absurd h (by simp)
  · rw [if_neg h1] at h
    by_cases h2 : (hourWindow dialogs today ch).isEmpty = true
    · rw [if_pos h2] at h
      exact absurd h (by simp)
    · rw [if_neg h2] at h
      exact (Option.some_inj.mp h).symm

/-- When `generate_daily_report` produces a report, the report is the
aggregation of the entire day log. -/
theorem daily_some_eq {dialogs : List DialogueEntry} {today : String}
    {r : DailyReport}
    (h : generate_daily_report (some dialogs) today = some r) :
    r = aggregateDaily today dialogs := by
  unfold generate_daily_report at h
  simp only [load_json_dialogs] at h
  by_cases h1 : dialogs.isEmpty = true
  · rw [if_pos h1] at h
    exact absurd h (by simp)
  · rw [if_neg h1] at h
    exact (Option.some_inj.mp h).symm

/-- The reply sent on a successful model call is the stripped model text,
whenever the day's log file is present (so step 1 does not crash). -/
theorem handle_sent_strip (fs : Files) (l : List DialogueEntry) (uid : Nat)
    (fn : Option String) (text ts today ch : String) (hour minute : Nat)
    (t : String) (hl : fs.dialogs = some l) :
    (handle_message fs uid fn text ts today ch hour minute (.ok t)).map
      HandleOutcome.sent = .ok (py_strip t) := by
  unfold handle_message log_dialog load_json_dialogs
  rw [hl]
  simp [Except.map]

/-- Stripping a string of non-whitespace characters changes nothing, at
every length. -/
theorem py_strip_replicate (n : Nat) (c : Char) (hc : py_isspace c = false) :
    py_strip ⟨List.replicate n c⟩ = ⟨List.replicate n c⟩ := by
  unfold py_strip
  rw [List.dropWhile_replicate, if_neg (by simp [hc]), List.reverse_replicate,
    List.dropWhile_replicate, if_neg (by simp [hc]), List.reverse_replicate]

/-- Python dict assignment followed by lookup of the same key yields the
assigned value. -/
theorem pyDictSet_lookup {β : Type} (m : List (String × β)) (k : String) (v : β) :
    (pyDictSet m k v).lookup k = some v := by
  unfold pyDictSet
  cases hb : m.any (fun p => p.1 == k) with
  | true =>
    rw [if_pos rfl]
    exact lookup_map_replace k v m hb
  | false =>
    rw [if_neg (by simp)]
    exact lookup_append_new k v m hb

/-! ### Claim C1 -/

/-- C1: the claim says the Dialogue Log append step completes without
crashing the handler even when the day's log segment does not yet exist,
the load step then yielding an empty entry sequence. The code violates
this: `load_json` tests `filepath.endswith("dialogs")`, but the segment
path always ends in `".json"`, so a missing (or unparsable) segment loads
as `{}` and `dialogs.append(...)` raises `AttributeError`, which escapes
`handle_message` because `log_dialog` is called outside the `try` block.
This theorem shows the crash on every first message of a day: whenever the
day's log file is absent, `handle_message` raises instead of logging,
for every date, user, message and model outcome. -/
theorem C1_first_message_crashes_pipeline (fs : Files) (uid : Nat)
    (fn : Option String) (text ts today ch : String) (hour minute : Nat)
    (model : ModelResult) (hmiss : fs.dialogs = none) :
    handle_message fs uid fn text ts today ch hour minute model =
      .error .attributeError := by
  unfold handle_message log_dialog load_json_dialogs
  rw [hmiss]
  simp [not_endswith_dialogs]

/-- C1 witness: the crash at a concrete first message of a day. -/
theorem C1_witness :
    handle_message ⟨none, none, [], none⟩ 7 (some "alice") "hi"
      "2025-06-01 10:15:00" "2025-06-01" "10" 10 15 (.ok "fine") =
      .error .attributeError :=
  C1_first_message_crashes_pipeline ⟨none, none, [], none⟩ 7 (some "alice")
    "hi" "2025-06-01 10:15:00" "2025-06-01" "10" 10 15 (.ok "fine") rfl

/-! ### Claim C2 -/

/-- C2 counterexample: the claim says a sequence of appends to one user's
context retains exactly the most recent `MAX_HISTORY*2 = 10` entries. The
code trims to the last 5 ENTRIES (`messages[-5:]`, bot.py line 127), so
after 6 appends only 5 entries remain, not the 6 most recent of a
10-entry budget, refuting the claim at this input. -/
theorem C2_counterexample :
    ¬ ∀ (es : List CtxEntry),
      (es.foldl appendTurn []).length ≤ 10 ∧
      es.foldl appendTurn [] = py_lastN 10 es := by
  intro h
  have h6 := (h [⟨"user", "m1"⟩, ⟨"model", "r1"⟩, ⟨"user", "m2"⟩,
      ⟨"model", "r2"⟩, ⟨"user", "m3"⟩, ⟨"model", "r3"⟩]).2
  exact absurd h6 (by decide)

/-- C2 amended: the stored sequence length never exceeds 5 entries (the
code trims to the last 5 entries — 2.5 turn-pairs — not `MAX_HISTORY*2` =
10), and the retained entries are exactly the most recent 5 appended
entries in their original order. Part one: a single
`save_user_context` stores exactly the last 5 of the pushed sequence
under the user's key. Part two: iterating the push-then-trim round trip
from an empty context over any append sequence keeps exactly the last 5
appended entries, in order. -/
theorem C2_context_bounded_by_five :
    (∀ (content : Option CtxMap) (uid : Nat) (msgs : List CtxEntry),
      (save_user_context content uid msgs).lookup (toString uid) =
        some (py_lastN 5 msgs)) ∧
    ∀ (es : List CtxEntry),
      (es.foldl appendTurn []).length ≤ 5 ∧ es.foldl appendTurn [] = py_lastN 5 es := by
  constructor
  · intro content uid msgs
    unfold save_user_context
    exact pyDictSet_lookup _ _ _
  · intro es
    refine ⟨?_, foldl_appendTurn es⟩
    rw [foldl_appendTurn]
    simp only [py_lastN, List.length_drop]
    omega

/-! ### Claim C3 -/

/-- C3 counterexample: the claim says the hourly aggregation triggered at
an hour-bucket transition covers the just-completed (previous) hour. At
the concrete transition into hour 13 the previous hour 12 holds 2 entries,
yet the report produced by the code counts 1 message — it is computed from
the window of the hour that has just begun (`get_current_hour()` at
trigger time, bot.py line 148), not from the previous hour's 2 entries. -/
theorem C3_counterexample :
    (generate_hourly_report (some [⟨"2025-06-01 12:05:00", 1, "alice", "early?"⟩,
        ⟨"2025-06-01 12:40:00", 3, "carol", "mid"⟩,
        ⟨"2025-06-01 13:00:20", 2, "bob", "late"⟩]) "2025-06-01" "13").map
      HourlyReport.total_messages = some 1 ∧
    (hourWindow [⟨"2025-06-01 12:05:00", 1, "alice", "early?"⟩,
        ⟨"2025-06-01 12:40:00", 3, "carol", "mid"⟩,
        ⟨"2025-06-01 13:00:20", 2, "bob", "late"⟩] "2025-06-01" "12").length = 2 := by
  decide

/-- C3 amended: the hourly aggregation triggered at an hour-bucket
transition covers the hour CURRENT at trigger time (the hour that has just
begun), not the previous hour: whenever a report is produced at trigger
hour `ch`, it is the aggregation of exactly the entries whose timestamp
starts with the `today ch:` prefix. -/
theorem C3_report_covers_current_hour (dialogs : List DialogueEntry)
    (today ch : String) (r : HourlyReport)
    (h : generate_hourly_report (some dialogs) today ch = some r) :
    r = aggregateHourly ch (hourWindow dialogs today ch) ∧
    hourWindow dialogs today ch =
      dialogs.filter (fun e => py_startswith e.timestamp (today ++ " " ++ ch ++ ":")) :=
  ⟨hourly_some_eq h, rfl⟩

/-- C3 witness: the amended theorem applied at a concrete trigger. -/
theorem C3_witness :
    aggregateHourly "13" (hourWindow [⟨"2025-06-01 13:00:20", 2, "bob", "late"⟩]
        "2025-06-01" "13") =
      aggregateHourly "13" (hourWindow [⟨"2025-06-01 13:00:20", 2, "bob", "late"⟩]
        "2025-06-01" "13") ∧
    hourWindow [⟨"2025-06-01 13:00:20", 2, "bob", "late"⟩] "2025-06-01" "13" =
      List.filter (fun e => py_startswith e.timestamp ("2025-06-01" ++ " " ++ "13" ++ ":"))
        [⟨"2025-06-01 13:00:20", 2, "bob", "late"⟩] :=
  C3_report_covers_current_hour [⟨"2025-06-01 13:00:20", 2, "bob", "late"⟩]
    "2025-06-01" "13"
    (aggregateHourly "13" (hourWindow [⟨"2025-06-01 13:00:20", 2, "bob", "late"⟩]
      "2025-06-01" "13"))
    (by decide)

/-! ### Claim C4 -/

/-- C4 counterexample: the claim says the hourly aggregation runs at most
once per hour-bucket transition across all triggering paths. The message
path (bot.py line 356) triggers `generate_hourly_report` after EVERY
successfully handled message whose wall-clock minute is 0, so two
successful messages at 05:00:00 and 05:00:30 both trigger it inside hour
bucket 5 — two runs for one transition. -/
theorem C4_counterexample :
    ¬ ∀ (msgTimes : List Nat) (bucket : Nat),
        hourlyTriggerCount msgTimes bucket ≤ 1 := by
  intro h
  exact absurd (h [18000, 18030] 5) (by decide)

/-- Each check of the scheduler loop happens at least 30 s after the
previous one. -/
theorem loopStep_add_thirty (t : Nat) : t + 30 ≤ loopStep t := by
  unfold loopStep
  split
  · split <;> omega
  · omega

/-- After a check that triggers the hourly report, the next check happens
at least 90 s later (the 60 s post-trigger sleep plus the 30 s poll
sleep). -/
theorem loopStep_of_trigger {t : Nat} (h : minuteOf t = 0) : t + 90 ≤ loopStep t := by
  unfold loopStep
  rw [if_pos (by simp [h])]
  split <;> omega

/-- Loop check times never decrease with the iteration index. -/
theorem loopTime_mono (t0 : Nat) {i j : Nat} (h : i ≤ j) :
    loopTime t0 i ≤ loopTime t0 j := by
  induction h with
  | refl => exact le_refl _
  | step h ih =>
    exact le_trans ih (le_trans (Nat.le_add_right _ 30) (loopStep_add_thirty _))

/-- A time whose minute-of-hour is 0 lies in the first 60 seconds of its
hour bucket. -/
theorem minuteZero_window {t : Nat} (h : minuteOf t = 0) :
    3600 * hourBucket t ≤ t ∧ t < 3600 * hourBucket t + 60 := by
  unfold minuteOf at h
  unfold hourBucket
  omega

/-- C4 amended: at-most-once per bucket transition holds for the
`periodic_reports` loop alone — two distinct loop checks that both trigger
the hourly report always lie in different hour buckets, because the 60 s
sleep after a trigger moves the next check past the minute-0 window.
Across all paths the property fails (see the counterexample): every
successful message handled at minute 0 triggers an additional run. -/
theorem C4_loop_at_most_once_per_hour (t0 i j : Nat) (hij : i < j)
    (hi : loopHourlyTrigger t0 i = true) (hj : loopHourlyTrigger t0 j = true) :
    hourBucket (loopTime t0 i) ≠ hourBucket (loopTime t0 j) := by
  intro hb
  have hmi : minuteOf (loopTime t0 i) = 0 := by
    simpa [loopHourlyTrigger] using hi
  have hmj : minuteOf (loopTime t0 j) = 0 := by
    simpa [loopHourlyTrigger] using hj
  have h1 : loopTime t0 i + 90 ≤ loopTime t0 (i + 1) := loopStep_of_trigger hmi
  have h2 : loopTime t0 (i + 1) ≤ loopTime t0 j := loopTime_mono t0 hij
  have wi := minuteZero_window hmi
  have wj := minuteZero_window hmj
  rw [hb] at wi
  omega

set_option maxRecDepth 4000 in
/-- C4 witness: the loop started at midnight triggers at its checks 0 and
118 (the first checks of hours 0 and 1), and those lie in different
buckets. -/
theorem C4_witness :
    hourBucket (loopTime 0 0) ≠ hourBucket (loopTime 0 118) :=
  C4_loop_at_most_once_per_hour 0 0 118 (by omega) (by decide) (by decide)

/-! ### Claim C5 -/

/-- The spec's §8 scenario window: three messages in hour 14 from two
distinct users. -/
def specScenario : List DialogueEntry :=
  [⟨"2025-06-01 14:00:05", 1, "u1", "hi?"⟩,
   ⟨"2025-06-01 14:01:00", 2, "u2", "what is the weather today?"⟩,
   ⟨"2025-06-01 14:02:00", 1, "u1", "ok"⟩]

/-- C5 counterexample: the claim says `highlighted_messages` is the top 2
(hourly) by message length descending. On the spec's own scenario window
the code instead selects the messages containing `"?"` in log order
(`"hi?"` first), up to 5 of them (bot.py line 168) — not the
length-descending ranking, refuting the claim at this input. -/
theorem C5_counterexample :
    (generate_hourly_report (some specScenario) "2025-06-01" "14").map
      HourlyReport.questions = some ["hi?", "what is the weather today?"] ∧
    specHighlightedMessages 2 (hourWindow specScenario "2025-06-01" "14") =
      ["what is the weather today?", "hi?"] ∧
    (["hi?", "what is the weather today?"] : List String) ≠
      ["what is the weather today?", "hi?"] := by
  decide

/-- C5 amended: the highlighted messages of a report are the window's
messages that contain `"?"`, in original log order, the first 5 for an
hourly report and the first 10 for a daily report, each rendered truncated
to 100 characters (`q[:100]`). They are not ranked by length. -/
theorem C5_highlights_are_first_questions :
    (∀ (dialogs : List DialogueEntry) (today ch : String) (r : HourlyReport),
      generate_hourly_report (some dialogs) today ch = some r →
      r.questions = questionMessages (hourWindow dialogs today ch) 5 ∧
      r.questions.map questionLine =
        (questionMessages (hourWindow dialogs today ch) 5).map
          (fun q => "- " ++ py_take 100 q ++ "\n")) ∧
    (∀ (dialogs : List DialogueEntry) (today : String) (r : DailyReport),
      generate_daily_report (some dialogs) today = some r →
      r.questions = questionMessages dialogs 10 ∧
      r.questions.map questionLine =
        (questionMessages dialogs 10).map
          (fun q => "- " ++ py_take 100 q ++ "\n")) := by
  constructor
  · intro dialogs today ch r h
    rw [hourly_some_eq h]
    exact ⟨rfl, rfl⟩
  · intro dialogs today r h
    rw [daily_some_eq h]
    exact ⟨rfl, rfl⟩

/-- C5 witness: the amended theorem applied to the scenario window. -/
theorem C5_witness :
    (aggregateHourly "14" (hourWindow specScenario "2025-06-01" "14")).questions =
      questionMessages (hourWindow specScenario "2025-06-01" "14") 5 :=
  (C5_highlights_are_first_questions.1 specScenario "2025-06-01" "14"
    (aggregateHourly "14" (hourWindow specScenario "2025-06-01" "14"))
    (by decide)).1

/-! ### Claim C6 -/

/-- A window whose only message repeats one six-character token. -/
def longTokenDay : List DialogueEntry :=
  [⟨"2025-06-01 15:10:00", 1, "u1", "zzzzzz zzzzzz"⟩]

/-- C6 counterexample: the claim says every report contains `top_terms`
obtained by tokenizing, filtering tokens of length at most 4, and ranking
by frequency. On a window whose spec-side top term is `"zzzzzz"`, the
rendered hourly report does not even mention that token: the code computes
`all_text` (line 165) and never uses it, and no term ranking exists
anywhere in the report. -/
theorem C6_counterexample :
    specTopTerms (hourWindow longTokenDay "2025-06-01" "15") = ["zzzzzz"] ∧
    (generate_hourly_report (some longTokenDay) "2025-06-01" "15").map
      (fun r => py_contains (renderHourly r) "zzzzzz") = some false := by
  decide

/-- C6 amended: no term extraction happens. The lower-cased concatenation
`all_text` is computed and discarded, and the rendered artifacts are
functions of the displayed statistics alone: two windows with equal
message counts, equal distinct-user counts, and equal question lists (and,
for the daily report, equal per-user tallies) render to identical
artifacts regardless of their message text. -/
theorem C6_reports_have_no_terms :
    (∀ (ch : String) (w1 w2 : List DialogueEntry),
      w1.length = w2.length → uniqueUsers w1 = uniqueUsers w2 →
      questionMessages w1 5 = questionMessages w2 5 →
      renderHourly (aggregateHourly ch w1) = renderHourly (aggregateHourly ch w2)) ∧
    (∀ (d : String) (w1 w2 : List DialogueEntry),
      w1.length = w2.length → uniqueUsers w1 = uniqueUsers w2 →
      userCounts w1 = userCounts w2 →
      questionMessages w1 10 = questionMessages w2 10 →
      renderDaily (aggregateDaily d w1) = renderDaily (aggregateDaily d w2)) := by
  constructor
  · intro ch w1 w2 h1 h2 h3
    simp only [renderHourly, aggregateHourly, h1, h2, h3]
  · intro d w1 w2 h1 h2 h3 h4
    simp only [renderDaily, aggregateDaily, h1, h2, h3, h4]

/-- C6 witness: two single-message windows with different six-character
tokens render to the same hourly and daily artifacts. -/
theorem C6_witness :
    renderHourly (aggregateHourly "15" longTokenDay) =
      renderHourly (aggregateHourly "15"
        [⟨"2025-06-01 15:10:00", 1, "u1", "qqqqqq qqqqqq"⟩]) ∧
    renderDaily (aggregateDaily "2025-06-01" longTokenDay) =
      renderDaily (aggregateDaily "2025-06-01"
        [⟨"2025-06-01 15:10:00", 1, "u1", "qqqqqq qqqqqq"⟩]) :=
  ⟨C6_reports_have_no_terms.1 "15" longTokenDay
      [⟨"2025-06-01 15:10:00", 1, "u1", "qqqqqq qqqqqq"⟩]
      (by decide) (by decide) (by decide),
   C6_reports_have_no_terms.2 "2025-06-01" longTokenDay
      [⟨"2025-06-01 15:10:00", 1, "u1", "qqqqqq qqqqqq"⟩]
      (by decide) (by decide) (by decide) (by decide)⟩

/-! ### Claim C7 -/

/-- C7 counterexample: the claim says replies are truncated to at most
4096 characters with a continuation marker. A successful 4097-character
model reply is sent back verbatim: the code does `response.text.strip()`
and `reply_text(bot_reply)` with no length check (bot.py lines 340-352). -/
theorem C7_counterexample :
    (handle_message ⟨some [], none, [], none⟩ 1 (some "alice") "hi"
        "2025-06-01 10:30:00" "2025-06-01" "10" 10 30
        (.ok ⟨List.replicate 4097 'a'⟩)).map HandleOutcome.sent =
      .ok ⟨List.replicate 4097 'a'⟩ ∧
    (String.mk (List.replicate 4097 'a')).length = 4097 := by
  constructor
  · rw [handle_sent_strip ⟨some [], none, [], none⟩ [] 1 (some "alice") "hi"
      "2025-06-01 10:30:00" "2025-06-01" "10" 10 30 _ rfl]
    rw [py_strip_replicate 4097 'a' (by decide)]
  · show (List.replicate 4097 'a').length = 4097
    rw [List.length_replicate]

/-- C7 amended: the pipeline sends the stripped model reply unchanged at
EVERY length — no truncation at 4096 characters and no continuation
marker. For any reply made of `n` copies of a non-whitespace character,
the sent text is that reply itself. -/
theorem C7_no_truncation (fs : Files) (l : List DialogueEntry) (uid : Nat)
    (fn : Option String) (text ts today ch : String) (hour minute n : Nat)
    (c : Char) (hl : fs.dialogs = some l) (hc : py_isspace c = false) :
    (handle_message fs uid fn text ts today ch hour minute
        (.ok ⟨List.replicate n c⟩)).map HandleOutcome.sent =
      .ok ⟨List.replicate n c⟩ := by
  rw [handle_sent_strip fs l uid fn text ts today ch hour minute _ hl]
  rw [py_strip_replicate n c hc]

/-- C7 witness: a 5000-character reply of letters `b` passes through
unchanged. -/
theorem C7_witness :
    (handle_message ⟨some [], none, [], none⟩ 2 (some "bob") "hey"
        "2025-06-01 11:30:00" "2025-06-01" "11" 11 30
        (.ok ⟨List.replicate 5000 'b'⟩)).map HandleOutcome.sent =
      .ok ⟨List.replicate 5000 'b'⟩ :=
  C7_no_truncation ⟨some [], none, [], none⟩ [] 2 (some "bob") "hey"
    "2025-06-01 11:30:00" "2025-06-01" "11" 11 30 5000 'b' rfl (by decide)

/-! ### Claim C8 -/

/-- C8: when the model call fails with a rate-limit/quota error, the
pipeline replies with the dedicated rate-limit message — distinct from
the generic failure message — and the Dialogue Log file ends with the
user's message appended by step 1; context and report artifacts are
untouched (the outcome state differs from the input state only in the
dialogs file). No retry exists: one invocation performs exactly one model
call by construction of `handle_message`. -/
theorem C8_rate_limited (fs : Files) (l : List DialogueEntry) (uid : Nat)
    (fn : Option String) (text ts today ch err : String) (hour minute : Nat)
    (hl : fs.dialogs = some l) (he : is_rate_limit_error err = true) :
    handle_message fs uid fn text ts today ch hour minute (.failed err) =
      .ok ⟨{ fs with dialogs := some (l ++ [⟨ts, uid, user_name_of fn, text⟩]) },
        RATE_LIMIT_MSG⟩ ∧
    RATE_LIMIT_MSG ≠ GENERIC_ERROR_MSG := by
  constructor
  · unfold handle_message log_dialog load_json_dialogs
    rw [hl]
    simp [he]
  · decide

/-- C8 witness: a concrete quota failure. -/
theorem C8_witness :
    handle_message ⟨some [], none, [], none⟩ 1 (some "alice") "hi"
      "2025-06-01 10:15:00" "2025-06-01" "10" 10 15
      (.failed "429 quota exceeded") =
      .ok ⟨⟨some [⟨"2025-06-01 10:15:00", 1, "alice", "hi"⟩], none, [], none⟩,
        RATE_LIMIT_MSG⟩ ∧
    RATE_LIMIT_MSG ≠ GENERIC_ERROR_MSG :=
  C8_rate_limited ⟨some [], none, [], none⟩ [] 1 (some "alice") "hi"
    "2025-06-01 10:15:00" "2025-06-01" "10" "429 quota exceeded" 10 15
    rfl (by decide)

/-! ### Claim C9 -/

/-- C9: on a window with no dialogue entries, the aggregators write
nothing: the whole file state — in particular every previously written
report artifact — is unchanged. For the hourly aggregator the hypothesis
covers both an absent/unparsable dialogs file and a present one with no
entry in the current hour; for the daily aggregator, an absent file or an
empty day log. -/
theorem C9_empty_window_writes_nothing :
    (∀ (fs : Files) (today ch : String),
      hourWindowOf fs.dialogs today ch = [] →
      run_generate_hourly_report fs today ch = fs) ∧
    (∀ (fs : Files) (today : String),
      fs.dialogs.getD [] = [] →
      run_generate_daily_report fs today = fs) := by
  constructor
  · intro fs today ch h
    unfold run_generate_hourly_report
    cases hd : fs.dialogs with
    | none => simp [generate_hourly_report, load_json_dialogs, not_endswith_dialogs]
    | some d =>
      unfold hourWindowOf at h
      rw [hd] at h
      simp only [Option.getD_some] at h
      simp [generate_hourly_report, load_json_dialogs, h]
  · intro fs today h
    unfold run_generate_daily_report
    cases hd : fs.dialogs with
    | none => simp [generate_daily_report, load_json_dialogs, not_endswith_dialogs]
    | some d =>
      rw [hd] at h
      simp only [Option.getD_some] at h
      subst h
      simp [generate_daily_report, load_json_dialogs]

/-- C9 witness: with a prior hour-13 artifact and a prior daily artifact
in place, aggregating an empty hour-13 window and an empty day leaves
both artifacts exactly as they were. -/
theorem C9_witness :
    run_generate_hourly_report
      ⟨some [⟨"2025-06-01 12:05:00", 1, "alice", "x"⟩], none,
        [("13", "previous hourly artifact")], some "previous daily artifact"⟩
      "2025-06-01" "13" =
      ⟨some [⟨"2025-06-01 12:05:00", 1, "alice", "x"⟩], none,
        [("13", "previous hourly artifact")], some "previous daily artifact"⟩ ∧
    run_generate_daily_report
      ⟨some [], none, [("13", "previous hourly artifact")],
        some "previous daily artifact"⟩ "2025-06-01" =
      ⟨some [], none, [("13", "previous hourly artifact")],
        some "previous daily artifact"⟩ :=
  ⟨C9_empty_window_writes_nothing.1
      ⟨some [⟨"2025-06-01 12:05:00", 1, "alice", "x"⟩], none,
        [("13", "previous hourly artifact")], some "previous daily artifact"⟩
      "2025-06-01" "13" (by decide),
   C9_empty_window_writes_nothing.2
      ⟨some [], none, [("13", "previous hourly artifact")],
        some "previous daily artifact"⟩ "2025-06-01" (by decide)⟩

/-! ### Claim C10 -/

/-- C10: when the model call raises any error, the persisted Context
Store is unchanged by the invocation — `save_user_context` runs only
after a successful reply (bot.py line 349), so neither the user's new
message nor any reply is persisted on the error path. -/
theorem C10_context_unchanged_on_error (fs : Files) (l : List DialogueEntry)
    (uid : Nat) (fn : Option String) (text ts today ch err : String)
    (hour minute : Nat) (hl : fs.dialogs = some l) :
    (handle_message fs uid fn text ts today ch hour minute (.failed err)).map
      (fun out => out.files.user_context) = .ok fs.user_context := by
  unfold handle_message log_dialog load_json_dialogs
  rw [hl]
  simp [Except.map]

/-- C10 witness: a concrete failing model call leaves a nonempty context
store untouched. -/
theorem C10_witness :
    (handle_message ⟨some [], some [("1", [⟨"user", "old"⟩])], [], none⟩ 1
        (some "alice") "hi" "2025-06-01 10:15:00" "2025-06-01" "10" 10 15
        (.failed "500 internal error")).map (fun out => out.files.user_context) =
      .ok (some [("1", [⟨"user", "old"⟩])]) :=
  C10_context_unchanged_on_error
    ⟨some [], some [("1", [⟨"user", "old"⟩])], [], none⟩ [] 1 (some "alice")
    "hi" "2025-06-01 10:15:00" "2025-06-01" "10" "500 internal error" 10 15 rfl

end Bot
